import Mathlib

/-!
Verification of the graphile-worker-ui repository's specification against a
shallow embedding of its source code.

The repository is a dashboard for the graphile-worker job queue.  The parts
relevant to the frozen claims are:

* the job row shape returned by the GraphQL API (`lockedAt`, `lastError`,
  `attempts`, `maxAttempts`);
* three client-side derived-status functions (`getJobStatus` in the JobList
  component, `getJobStatus` in the JobDetails component, and the inline
  `status` expression in the JobPage detail view);
* the server-side status filter built by `buildFilter` in the JobList
  component;
* the dashboard statistics computations (`jobStats` in both App variants and
  the fallback `stats` in the Dashboard component);
* the three mutation resolvers (`retryJob`, `cancelJob`, `completeJob`) of the
  backend's JobManagementPlugin;
* the URL query-parameter encode/decode effects of the JobList component;
* the Pagination component's page-change handlers;
* the fixed poll intervals of each view.

Timestamps and error texts reach the client as JSON strings or null; we embed
them as `Option String`.  JavaScript truthiness of such a value (`job.lockedAt`,
`job.lastError`) is "non-null and non-empty", embedded below as `truthy`.
SQL `isNull` filters on the other hand test only for null, embedded as
`Option.isNone` / `Option.isSome`.  `attempts` and `maxAttempts` are
non-negative integers, embedded as `Nat`.
-/

/-- A job row as consumed by the status logic: the four lifecycle fields that
every status derivation and status filter reads. -/
structure Job where
  lockedAt : Option String
  lastError : Option String
  attempts : Nat
  maxAttempts : Nat
deriving DecidableEq, Repr

/-- JavaScript truthiness of a string-or-null field: `null` and the empty
string are falsy, every other string is truthy. -/
def truthy : Option String → Bool
  | none => false
  | some s => s ≠ ""

/-- Database well-formedness: a non-null `lockedAt` timestamp or `lastError`
text is never the empty string, so JS truthiness agrees with SQL non-nullness. -/
def Job.wf (j : Job) : Prop :=
  j.lockedAt ≠ some "" ∧ j.lastError ≠ some ""

/-- The four derived statuses of the UI. -/
inductive Status where
  | pending
  | running
  | failed
  | completed
deriving DecidableEq, Repr

/-- The string each status renders as in the UI and in the URL status filter. -/
def statusToString : Status → String
  | .pending => "pending"
  | .running => "running"
  | .failed => "failed"
  | .completed => "completed"

/-- Derived status of the JobList component (src/unnamed/part_000 lines
255-261): running if locked; failed if a last error is present and not
locked; completed if attempted with no error and no lock; else pending. -/
def getJobStatus (job : Job) : Status :=
  if truthy job.lockedAt then .running
  else if truthy job.lastError && !truthy job.lockedAt then .failed
  else if decide (job.attempts > 0) && !truthy job.lastError && !truthy job.lockedAt then .completed
  else .pending

/-- Derived status of the JobDetails component
(src/frontend/src/components/JobDetails.jsx lines 119-124): the failed case
additionally requires `attempts >= maxAttempts`. -/
def getJobStatusDetails (job : Job) : Status :=
  if truthy job.lockedAt then .running
  else if decide (job.attempts ≥ job.maxAttempts) && truthy job.lastError then .failed
  else if decide (job.attempts > 0) && !truthy job.lastError && !truthy job.lockedAt then .completed
  else .pending

/-- Derived status of the JobPage detail view (second document embedded in
src/frontend/src/components/Pagination.jsx, lines 171-177): a chain of
conditional expressions on `lockedAt`, `lastError`, `attempts > 0`. -/
def jobPageStatus (job : Job) : Status :=
  if truthy job.lockedAt then .running
  else if truthy job.lastError then .failed
  else if decide (job.attempts > 0) then .completed
  else .pending

/-- Semantics, per job, of the status branch of `buildFilter` in the JobList
component (src/unnamed/part_000 lines 161-197).  Each case is the server-side
connection-filter predicate that the switch installs for that status filter
string; an unrecognized string installs no status condition, so every job
matches. -/
def buildFilterStatusPred (statusFilter : String) (job : Job) : Bool :=
  if statusFilter = "running" then job.lockedAt.isSome
  else if statusFilter = "failed" then job.lastError.isSome && job.lockedAt.isNone
  else if statusFilter = "completed" then
    decide (job.attempts > 0) && job.lastError.isNone && job.lockedAt.isNone
  else if statusFilter = "pending" then
    job.lockedAt.isNone && decide (job.attempts = 0)
  else true

/-!
Dashboard statistics.

The first App variant (src/frontend/src/App.jsx lines 100-107) computes
`jobStats` by filtering the full job list with four predicates; the Dashboard
component's fallback `stats` (src/unnamed/part_001 lines 37-44) does the same
with a different failed predicate.  The second App variant (src/frontend/src/
App.jsx lines 430-439) instead takes four server-side counts and derives
pending by clamped subtraction.
-/

/-- Pending predicate of `jobStats` in App.jsx (line 103) and of the Dashboard
fallback `stats`: not locked and attempts below the maximum. -/
def statsPendingPred (j : Job) : Bool :=
  !truthy j.lockedAt && decide (j.attempts < j.maxAttempts)

/-- Running predicate of `jobStats` (App.jsx line 104) and of the Dashboard
fallback `stats`: locked. -/
def statsRunningPred (j : Job) : Bool :=
  truthy j.lockedAt

/-- Failed predicate of `jobStats` in App.jsx (line 105): a last error is
present and the job is not locked. -/
def statsFailedPredApp (j : Job) : Bool :=
  truthy j.lastError && !truthy j.lockedAt

/-- Failed predicate of the Dashboard fallback `stats`
(src/unnamed/part_001 line 42): attempts reached the maximum and a last error
is present. -/
def statsFailedPredDash (j : Job) : Bool :=
  decide (j.attempts ≥ j.maxAttempts) && truthy j.lastError

/-- Completed predicate of `jobStats` (App.jsx line 106) and of the Dashboard
fallback `stats`: attempted, no error, not locked. -/
def statsCompletedPred (j : Job) : Bool :=
  decide (j.attempts > 0) && !truthy j.lastError && !truthy j.lockedAt

/-!
Server-side aggregate counts consumed by the second App variant's dashboard
query (src/frontend/src/App.jsx lines 343-374).  Each count is the
`totalCount` of `allJobs` under a connection filter; we embed a job population
as a list of rows and each count as the number of rows matching the filter.
SQL null tests are `Option.isSome`/`Option.isNone`.
-/

/-- Server count of all jobs (the unfiltered `totalCount`). -/
def serverTotalCount (jobs : List Job) : Nat :=
  jobs.length

/-- Server count of the `running` bucket: filter `lockedAt: isNull false`. -/
def serverRunningCount (jobs : List Job) : Nat :=
  (jobs.filter fun j => j.lockedAt.isSome).length

/-- Server count of the `failed` bucket: filter `lastError: isNull false`,
`lockedAt: isNull true`. -/
def serverFailedCount (jobs : List Job) : Nat :=
  (jobs.filter fun j => j.lastError.isSome && j.lockedAt.isNone).length

/-- Server count of the `completed` bucket: filter `attempts greaterThan 0`,
`lastError: isNull true`, `lockedAt: isNull true`. -/
def serverCompletedCount (jobs : List Job) : Nat :=
  (jobs.filter fun j => decide (j.attempts > 0) && j.lastError.isNone && j.lockedAt.isNone).length

/-- Derived pending count of the second App variant (App.jsx line 438):
`Math.max(0, total - running - failed - completed)`, computed over JS numbers,
embedded on integers. -/
def jobStatsPending (total running failed completed : Int) : Int :=
  max 0 (total - running - failed - completed)

/-!
Mutation resolvers of the backend's JobManagementPlugin
(second document embedded in src/frontend/src/main.jsx, lines 101-180).
Each resolver awaits one stored-procedure query; we embed the call it issues
(SQL text plus parameter values) and the resolver body as a function of the
query's outcome.  A resolver returns a plain Bool to the client and, on error,
writes one console.error line server-side; the embedded result records both.
-/

/-- A parameterized stored-procedure call as passed to `pgClient.query`:
the SQL text, the job-id array bound to `$1`, and the optional second
parameter bound to `$2`. -/
structure SqlCall where
  text : String
  idArray : List String
  secondParam : Option String
deriving DecidableEq, Repr

/-- The query issued by the `retryJob` resolver (main.jsx lines 118-121). -/
def retryJobCall (jobId : String) : SqlCall :=
  ⟨"SELECT graphile_worker.reschedule_jobs($1::bigint[], NOW())", [jobId], none⟩

/-- The query issued by the `cancelJob` resolver (main.jsx lines 141-144). -/
def cancelJobCall (jobId : String) : SqlCall :=
  ⟨"SELECT graphile_worker.permanently_fail_jobs($1::bigint[], $2)", [jobId],
    some "Cancelled by user"⟩

/-- The query issued by the `completeJob` resolver (main.jsx lines 164-166). -/
def completeJobCall (jobId : String) : SqlCall :=
  ⟨"SELECT graphile_worker.complete_jobs($1::bigint[])", [jobId], none⟩

/-- What a resolver hands back: the boolean GraphQL result and the
server-side log line written on the error path (none on success). -/
structure ResolverRun where
  result : Bool
  logged : Option String
deriving DecidableEq, Repr

/-- Body of the `retryJob` resolver as a function of the query outcome:
try returns true; catch logs and returns false. -/
def retryJobResolve (outcome : Except String Unit) : ResolverRun :=
  match outcome with
  | .ok _ => ⟨true, none⟩
  | .error e => ⟨false, some ("Error retrying job: " ++ e)⟩

/-- Body of the `cancelJob` resolver as a function of the query outcome. -/
def cancelJobResolve (outcome : Except String Unit) : ResolverRun :=
  match outcome with
  | .ok _ => ⟨true, none⟩
  | .error e => ⟨false, some ("Error cancelling job: " ++ e)⟩

/-- Body of the `completeJob` resolver as a function of the query outcome. -/
def completeJobResolve (outcome : Except String Unit) : ResolverRun :=
  match outcome with
  | .ok _ => ⟨true, none⟩
  | .error e => ⟨false, some ("Error completing job: " ++ e)⟩

/-!
Fixed poll intervals (milliseconds) of each view's `useQuery` options.
-/

/-- Dashboard poll interval of the first App variant (App.jsx line 82). -/
def dashboardPollIntervalV1 : Nat := 5000

/-- Dashboard poll interval of the second App variant (App.jsx line 412). -/
def dashboardPollIntervalV2 : Nat := 30000

/-- JobList poll interval (src/unnamed/part_000 line 206; also line 728 of the
second embedded JobList). -/
def jobListPollInterval : Nat := 5000

/-- Queues view poll interval (Queues.jsx line 23). -/
def queuesPollInterval : Nat := 15000

/-- JobDetails view poll interval (JobDetails.jsx line 66). -/
def jobDetailsPollInterval : Nat := 2000

/-- JobPage detail view poll interval (second document embedded in
Pagination.jsx, line 123). -/
def jobPagePollInterval : Nat := 10000

/-!
Pagination component (src/frontend/src/components/Pagination.jsx lines
23-67).  Five interactions invoke `onPageChange`: the First, Previous, Next
and Last buttons and the typed page-number input.  We embed the page index
each handler passes; the input carries the integer the user's text parsed to
(the handler is skipped on NaN).  JS arithmetic here is integer arithmetic,
embedded on `Int`.
-/

/-- A user interaction with the Pagination controls that calls
`onPageChange`. -/
inductive PageAction where
  | first
  | previous
  | next
  | last
  | input (n : Int)
deriving DecidableEq, Repr

/-- The page index a Pagination interaction passes to `onPageChange`:
First sends 0; Previous sends `max 0 (currentPage - 1)`; the typed input
sends `min (max (p - 1) 0) (totalPages - 1)`; Next sends
`min (currentPage + 1) (totalPages - 1)`; Last sends `totalPages - 1`. -/
def pageTarget (currentPage totalPages : Int) : PageAction → Int
  | .first => 0
  | .previous => max 0 (currentPage - 1)
  | .next => min (currentPage + 1) (totalPages - 1)
  | .last => totalPages - 1
  | .input n => min (max (n - 1) 0) (totalPages - 1)

/-!
URL synchronization of the JobList filter state (src/unnamed/part_000).
State initialization from the URL (lines 97-107), the URL-encode effect
(lines 127-140) and the URL-decode effect (lines 143-158) all exchange the
filter state through `URLSearchParams`.  We embed a parameter collection as a
partial map from key to value (the real object URL-encodes and decodes values
faithfully), `URLSearchParams.set` as a map update, the JS `String(number)`
conversion as a decimal printer, and `parseInt(s, 10)` as a decimal parser
that agrees with it on canonical numerals (`parseInt` additionally tolerates
signs, blanks and trailing garbage, none of which the encoder emits).
-/

/-- A URL query-parameter collection: a partial map from key to value. -/
abbrev ParamsMap := String → Option String

/-- The fresh `new URLSearchParams()` the encode effect starts from. -/
def emptyParams : ParamsMap := fun _ => none

/-- One `params.set(key, value)` call. -/
def setParam (m : ParamsMap) (k v : String) : ParamsMap :=
  fun key => if key = k then some v else m key

/-- The character for one decimal digit. -/
def digitChar (d : Nat) : Char := Char.ofNat (48 + d)

/-- Model of the JS `String(n)` conversion for a non-negative number: its
decimal numeral. -/
def natToString (n : Nat) : String :=
  if n = 0 then "0" else String.mk ((Nat.digits 10 n).reverse.map digitChar)

/-- The digit value of a character, none for a non-digit. -/
def charToDigit (c : Char) : Option Nat :=
  if 48 ≤ c.toNat ∧ c.toNat ≤ 57 then some (c.toNat - 48) else none

/-- Left-to-right accumulation of decimal digits, failing on a non-digit. -/
def parseDigitsAcc (acc : Nat) : List Char → Option Nat
  | [] => some acc
  | c :: cs =>
    match charToDigit c with
    | some d => parseDigitsAcc (acc * 10 + d) cs
    | none => none

/-- Model of `parseInt(s, 10)` on the strings the encoder produces: parse a
non-empty all-digit string, none (NaN) otherwise. -/
def parseInt10 (s : String) : Option Nat :=
  if s.data = [] then none else parseDigitsAcc 0 s.data

/-- The JobList filter state: search term, the three select filters, and the
0-based page index, exactly the five `useState` slots synchronized with the
URL. -/
structure FilterState where
  searchTerm : String
  statusFilter : String
  taskFilter : String
  queueFilter : String
  currentPage : Nat
deriving DecidableEq, Repr

/-- The URL-encode effect (part_000 lines 127-140): starting from fresh
params, set `q` when the search term is truthy, each select filter when
truthy and not the `all` sentinel, and `page` as the 1-based page number when
it is not 1. -/
def encodeParams (s : FilterState) : ParamsMap :=
  let p1 := if s.searchTerm ≠ "" then setParam emptyParams "q" s.searchTerm else emptyParams
  let p2 := if s.statusFilter ≠ "" ∧ s.statusFilter ≠ "all" then
    setParam p1 "status" s.statusFilter else p1
  let p3 := if s.taskFilter ≠ "" ∧ s.taskFilter ≠ "all" then
    setParam p2 "task" s.taskFilter else p2
  let p4 := if s.queueFilter ≠ "" ∧ s.queueFilter ≠ "all" then
    setParam p3 "queue" s.queueFilter else p3
  if s.currentPage + 1 ≠ 1 then
    setParam p4 "page" (natToString (s.currentPage + 1)) else p4

/-- JS `x || dflt` for a nullable string: the default replaces null and the
empty string. -/
def orElseStr (o : Option String) (dflt : String) : String :=
  match o with
  | none => dflt
  | some s => if s = "" then dflt else s

/-- Page-index decoding (part_000 lines 103-106 and 148-149):
`parseInt(get(page) || 1, 10)` then `p > 0 ? p - 1 : 0`, with NaN mapped
to 0. -/
def decodePage (o : Option String) : Nat :=
  match parseInt10 (orElseStr o "1") with
  | some p => if 0 < p then p - 1 else 0
  | none => 0

/-- The URL-decode effect (part_000 lines 143-158, identical to the state
initializers at lines 97-107): read each parameter back with its default. -/
def decodeState (m : ParamsMap) : FilterState :=
  ⟨orElseStr (m "q") "", orElseStr (m "status") "all", orElseStr (m "task") "all",
    orElseStr (m "queue") "all", decodePage (m "page")⟩

/-!
Helper lemmas: the decimal printer and parser are mutually inverse, and each
key of the encoded parameter map holds exactly what the encoder put there.
-/

/-- Parsing the character of a digit recovers the digit. -/
theorem charToDigit_digitChar {d : Nat} (hd : d < 10) :
    charToDigit (digitChar d) = some d := by
  interval_cases d <;> decide

/-- Accumulating parse over a list of digit characters folds up the digits. -/
theorem parseDigitsAcc_map_digitChar (bs : List Nat) (h : ∀ d ∈ bs, d < 10) (acc : Nat) :
    parseDigitsAcc acc (bs.map digitChar) = some (bs.foldl (fun a d => a * 10 + d) acc) := by
  induction bs generalizing acc with
  | nil => rfl
  | cons d tl ih =>
    have hd : d < 10 := h d (List.mem_cons_self d tl)
    simp only [List.map_cons, parseDigitsAcc, charToDigit_digitChar hd, List.foldl_cons]
    exact ih (fun x hx => h x (List.mem_cons_of_mem _ hx)) _

/-- Folding most-significant-first digits from an accumulator splits into the
accumulator shifted past the digits plus their value. -/
theorem foldr_mul_add (ds : List Nat) (acc : Nat) :
    ds.foldr (fun d a => a * 10 + d) acc = acc * 10 ^ ds.length + Nat.ofDigits 10 ds := by
  induction ds with
  | nil => simp
  | cons d tl ih =>
    simp only [List.foldr_cons, ih, Nat.ofDigits_cons, List.length_cons, pow_succ,
      Nat.cast_id]
    ring

/-- The decimal numeral of a positive number is non-empty. -/
theorem natToString_ne_empty {n : Nat} (hn : n ≠ 0) : natToString n ≠ "" := by
  unfold natToString
  rw [if_neg hn]
  intro h
  have hdata : (Nat.digits 10 n).reverse.map digitChar = ("" : String).data :=
    congrArg String.data h
  have hnil : ("" : String).data = [] := rfl
  rw [hnil, List.map_eq_nil_iff, List.reverse_eq_nil_iff] at hdata
  exact Nat.digits_ne_nil_iff_ne_zero.mpr hn hdata

/-- Round trip of the numeral printer and parser. -/
theorem parseInt10_natToString (n : Nat) : parseInt10 (natToString n) = some n := by
  rcases Nat.eq_zero_or_pos n with h0 | hpos
  · subst h0; decide
  · have hn : n ≠ 0 := Nat.pos_iff_ne_zero.mp hpos
    have hds : Nat.digits 10 n ≠ [] := Nat.digits_ne_nil_iff_ne_zero.mpr hn
    unfold natToString parseInt10
    rw [if_neg hn]
    have hdata : (String.mk ((Nat.digits 10 n).reverse.map digitChar)).data
        = (Nat.digits 10 n).reverse.map digitChar := rfl
    rw [hdata]
    have hne : (Nat.digits 10 n).reverse.map digitChar ≠ [] := by
      simp only [ne_eq, List.map_eq_nil_iff, List.reverse_eq_nil_iff]
      exact hds
    rw [if_neg hne]
    rw [parseDigitsAcc_map_digitChar _ (fun d hdmem =>
      Nat.digits_lt_base (by norm_num) (List.mem_reverse.mp hdmem)) 0]
    rw [List.foldl_reverse]
    rw [show (fun (x : Nat) (y : Nat) => y * 10 + x) = (fun d a => a * 10 + d) from rfl]
    rw [foldr_mul_add]
    simp [Nat.ofDigits_digits]

/-- The encoded `q` parameter is the search term exactly when it is truthy. -/
theorem encodeParams_q (s : FilterState) :
    encodeParams s "q" = if s.searchTerm = "" then none else some s.searchTerm := by
  unfold encodeParams
  by_cases h1 : s.searchTerm ≠ "" <;>
  by_cases h2 : s.statusFilter ≠ "" ∧ s.statusFilter ≠ "all" <;>
  by_cases h3 : s.taskFilter ≠ "" ∧ s.taskFilter ≠ "all" <;>
  by_cases h4 : s.queueFilter ≠ "" ∧ s.queueFilter ≠ "all" <;>
  by_cases h5 : s.currentPage + 1 ≠ 1 <;>
  simp [h1, h2, h3, h4, h5, setParam, emptyParams] <;> (try split_ifs) <;> (try simp_all)

/-- The encoded `status` parameter is the status filter exactly when it is
truthy and not the `all` sentinel. -/
theorem encodeParams_status (s : FilterState) :
    encodeParams s "status" =
      if s.statusFilter = "" ∨ s.statusFilter = "all" then none else some s.statusFilter := by
  unfold encodeParams
  by_cases h1 : s.searchTerm ≠ "" <;>
  by_cases h2 : s.statusFilter ≠ "" ∧ s.statusFilter ≠ "all" <;>
  by_cases h3 : s.taskFilter ≠ "" ∧ s.taskFilter ≠ "all" <;>
  by_cases h4 : s.queueFilter ≠ "" ∧ s.queueFilter ≠ "all" <;>
  by_cases h5 : s.currentPage + 1 ≠ 1 <;>
  simp [h1, h2, h3, h4, h5, setParam, emptyParams] <;> (try split_ifs) <;> (try simp_all)

/-- The encoded `task` parameter is the task filter exactly when it is truthy
and not the `all` sentinel. -/
theorem encodeParams_task (s : FilterState) :
    encodeParams s "task" =
      if s.taskFilter = "" ∨ s.taskFilter = "all" then none else some s.taskFilter := by
  unfold encodeParams
  by_cases h1 : s.searchTerm ≠ "" <;>
  by_cases h2 : s.statusFilter ≠ "" ∧ s.statusFilter ≠ "all" <;>
  by_cases h3 : s.taskFilter ≠ "" ∧ s.taskFilter ≠ "all" <;>
  by_cases h4 : s.queueFilter ≠ "" ∧ s.queueFilter ≠ "all" <;>
  by_cases h5 : s.currentPage + 1 ≠ 1 <;>
  simp [h1, h2, h3, h4, h5, setParam, emptyParams] <;> (try split_ifs) <;> (try simp_all)

/-- The encoded `queue` parameter is the queue filter exactly when it is
truthy and not the `all` sentinel. -/
theorem encodeParams_queue (s : FilterState) :
    encodeParams s "queue" =
      if s.queueFilter = "" ∨ s.queueFilter = "all" then none else some s.queueFilter := by
  unfold encodeParams
  by_cases h1 : s.searchTerm ≠ "" <;>
  by_cases h2 : s.statusFilter ≠ "" ∧ s.statusFilter ≠ "all" <;>
  by_cases h3 : s.taskFilter ≠ "" ∧ s.taskFilter ≠ "all" <;>
  by_cases h4 : s.queueFilter ≠ "" ∧ s.queueFilter ≠ "all" <;>
  by_cases h5 : s.currentPage + 1 ≠ 1 <;>
  simp [h1, h2, h3, h4, h5, setParam, emptyParams] <;> (try split_ifs) <;> (try simp_all)

/-- The encoded `page` parameter is the 1-based page numeral exactly when the
page index is non-zero. -/
theorem encodeParams_page (s : FilterState) :
    encodeParams s "page" =
      if s.currentPage = 0 then none else some (natToString (s.currentPage + 1)) := by
  unfold encodeParams
  by_cases h1 : s.searchTerm ≠ "" <;>
  by_cases h2 : s.statusFilter ≠ "" ∧ s.statusFilter ≠ "all" <;>
  by_cases h3 : s.taskFilter ≠ "" ∧ s.taskFilter ≠ "all" <;>
  by_cases h4 : s.queueFilter ≠ "" ∧ s.queueFilter ≠ "all" <;>
  by_cases h5 : s.currentPage + 1 ≠ 1 <;>
  simp [h1, h2, h3, h4, h5, setParam, emptyParams] <;> (try split_ifs) <;> (try simp_all)

/-- Decoding the encoded page parameter recovers the 0-based page index. -/
theorem decodePage_encodeParams (s : FilterState) :
    decodePage (encodeParams s "page") = s.currentPage := by
  rw [encodeParams_page]
  by_cases h0 : s.currentPage = 0
  · rw [if_pos h0, h0]
    decide
  · rw [if_neg h0]
    unfold decodePage
    have hne : natToString (s.currentPage + 1) ≠ "" :=
      natToString_ne_empty (Nat.succ_ne_zero _)
    have horelse : orElseStr (some (natToString (s.currentPage + 1))) "1"
        = natToString (s.currentPage + 1) := by
      simp [orElseStr, hne]
    rw [horelse, parseInt10_natToString]
    simp

/-!
Claims.
-/

/-- C1 counterexample: a job with a non-null last error, a null lock
timestamp, and attempts 0 of 25 derives `pending`, not `failed`, under the
JobDetails view's status function, refuting the claim for "every view". -/
theorem claim_C1_counterexample :
    (Job.mk none (some "boom") 0 25).lastError ≠ none ∧
    (Job.mk none (some "boom") 0 25).lockedAt = none ∧
    getJobStatusDetails (Job.mk none (some "boom") 0 25) ≠ Status.failed := by
  refine ⟨by decide, rfl, by decide⟩

/-- C1 (amended): for every job with a truthy (non-null, non-empty) last
error and a null lock timestamp, the JobList and JobPage status derivations
return `failed` regardless of attempts and max-attempts; the JobDetails
derivation instead returns `failed` exactly when attempts have reached
max-attempts. -/
theorem claim_C1_failed_status (job : Job) (hlock : job.lockedAt = none)
    (herr : truthy job.lastError = true) :
    getJobStatus job = Status.failed ∧ jobPageStatus job = Status.failed ∧
    (getJobStatusDetails job = Status.failed ↔ job.maxAttempts ≤ job.attempts) := by
  have hl : truthy job.lockedAt = false := by rw [hlock]; rfl
  refine ⟨?_, ?_, ?_⟩
  · simp [getJobStatus, hl, herr]
  · simp [jobPageStatus, hl, herr]
  · simp only [getJobStatusDetails, hl, herr]
    by_cases h : job.maxAttempts ≤ job.attempts <;> simp [h]

/-- C1 witness: the amended claim applied to a failed job at its attempt
limit. -/
theorem claim_C1_failed_status_witness :
    getJobStatus (Job.mk none (some "boom") 2 2) = Status.failed ∧
    jobPageStatus (Job.mk none (some "boom") 2 2) = Status.failed ∧
    (getJobStatusDetails (Job.mk none (some "boom") 2 2) = Status.failed ↔
      (Job.mk none (some "boom") 2 2).maxAttempts ≤ (Job.mk none (some "boom") 2 2).attempts) :=
  claim_C1_failed_status (Job.mk none (some "boom") 2 2) rfl (by decide)

/-- C2 counterexample: a job with a last error, no lock, and zero attempts
matches the server-side `pending` filter built by buildFilter, yet the
client-side derived status is `failed`, so the two classifications differ. -/
theorem claim_C2_counterexample :
    buildFilterStatusPred (statusToString Status.pending) (Job.mk none (some "boom") 0 25) = true ∧
    getJobStatus (Job.mk none (some "boom") 0 25) ≠ Status.pending := by
  refine ⟨by decide, by decide⟩

/-- C2 (amended): for every job whose nullable fields are never the empty
string, the server-side filter predicate agrees with the client-side derived
status for `running`, `failed` and `completed`; the `pending` filter is an
approximation that matches exactly the jobs the client derives as `pending`
plus the jobs the client derives as `failed` with zero attempts. -/
theorem claim_C2_filter_vs_status (job : Job) (hwf : job.wf) :
    (buildFilterStatusPred (statusToString Status.running) job = true ↔
      getJobStatus job = Status.running) ∧
    (buildFilterStatusPred (statusToString Status.failed) job = true ↔
      getJobStatus job = Status.failed) ∧
    (buildFilterStatusPred (statusToString Status.completed) job = true ↔
      getJobStatus job = Status.completed) ∧
    (buildFilterStatusPred (statusToString Status.pending) job = true ↔
      (getJobStatus job = Status.pending ∨
        (getJobStatus job = Status.failed ∧ job.attempts = 0))) := by
  obtain ⟨la, le, att, maxAtt⟩ := job
  obtain ⟨hwl, hwe⟩ := hwf
  simp only at hwl hwe
  cases la <;> cases le <;>
    simp_all [buildFilterStatusPred, getJobStatus, statusToString, truthy] <;>
    by_cases hatt : 0 < att <;> (try simp_all) <;> (try omega)

/-- C2 witness: the amended claim applied to a completed job. -/
theorem claim_C2_filter_vs_status_witness :
    (buildFilterStatusPred (statusToString Status.running) (Job.mk none none 1 5) = true ↔
      getJobStatus (Job.mk none none 1 5) = Status.running) ∧
    (buildFilterStatusPred (statusToString Status.failed) (Job.mk none none 1 5) = true ↔
      getJobStatus (Job.mk none none 1 5) = Status.failed) ∧
    (buildFilterStatusPred (statusToString Status.completed) (Job.mk none none 1 5) = true ↔
      getJobStatus (Job.mk none none 1 5) = Status.completed) ∧
    (buildFilterStatusPred (statusToString Status.pending) (Job.mk none none 1 5) = true ↔
      (getJobStatus (Job.mk none none 1 5) = Status.pending ∨
        (getJobStatus (Job.mk none none 1 5) = Status.failed ∧
          (Job.mk none none 1 5).attempts = 0))) :=
  claim_C2_filter_vs_status (Job.mk none none 1 5) (by constructor <;> decide)

/-- C3 counterexample: an unlocked, error-free job with attempts 1 of 25 is
counted by both the pending and the completed dashboard count predicates, so
the four predicates are not pairwise disjoint. -/
theorem claim_C3_counterexample :
    statsPendingPred (Job.mk none none 1 25) = true ∧
    statsCompletedPred (Job.mk none none 1 25) = true := by
  refine ⟨by decide, by decide⟩

/-- C3 (amended): for every job with max-attempts at least 1, the four
dashboard count predicates are jointly exhaustive (in both the App variant
and the Dashboard fallback variant), but they are not pairwise disjoint:
some job satisfies the pending and the completed predicates simultaneously,
and the overlap is exactly the unlocked, error-free jobs with
0 < attempts < maxAttempts. -/
theorem claim_C3_partition (j : Job) (hmax : 1 ≤ j.maxAttempts) :
    (statsPendingPred j = true ∨ statsRunningPred j = true ∨
      statsFailedPredApp j = true ∨ statsCompletedPred j = true) ∧
    (statsPendingPred j = true ∨ statsRunningPred j = true ∨
      statsFailedPredDash j = true ∨ statsCompletedPred j = true) ∧
    ((statsPendingPred j = true ∧ statsCompletedPred j = true) ↔
      (truthy j.lockedAt = false ∧ truthy j.lastError = false ∧
        0 < j.attempts ∧ j.attempts < j.maxAttempts)) ∧
    (∃ k : Job, statsPendingPred k = true ∧ statsCompletedPred k = true) := by
  refine ⟨?_, ?_, ?_, ⟨Job.mk none none 1 25, by decide, by decide⟩⟩ <;>
  · obtain ⟨la, le, att, maxAtt⟩ := j
    simp only at hmax
    simp only [statsPendingPred, statsRunningPred, statsFailedPredApp,
      statsFailedPredDash, statsCompletedPred]
    cases hb1 : truthy la <;> cases hb2 : truthy le <;> simp_all <;> omega

/-- C3 witness: the amended claim applied to a fresh pending job. -/
theorem claim_C3_partition_witness :
    (statsPendingPred (Job.mk none none 0 25) = true ∨
      statsRunningPred (Job.mk none none 0 25) = true ∨
      statsFailedPredApp (Job.mk none none 0 25) = true ∨
      statsCompletedPred (Job.mk none none 0 25) = true) ∧
    (statsPendingPred (Job.mk none none 0 25) = true ∨
      statsRunningPred (Job.mk none none 0 25) = true ∨
      statsFailedPredDash (Job.mk none none 0 25) = true ∨
      statsCompletedPred (Job.mk none none 0 25) = true) ∧
    ((statsPendingPred (Job.mk none none 0 25) = true ∧
        statsCompletedPred (Job.mk none none 0 25) = true) ↔
      (truthy (Job.mk none none 0 25).lockedAt = false ∧
        truthy (Job.mk none none 0 25).lastError = false ∧
        0 < (Job.mk none none 0 25).attempts ∧
        (Job.mk none none 0 25).attempts < (Job.mk none none 0 25).maxAttempts)) ∧
    (∃ k : Job, statsPendingPred k = true ∧ statsCompletedPred k = true) :=
  claim_C3_partition (Job.mk none none 0 25) (by decide)

/-- Helper for C4: the three filtered server counts use pairwise exclusive
predicates, so their sum never exceeds the unfiltered total. -/
theorem server_counts_le_total (jobs : List Job) :
    serverRunningCount jobs + serverFailedCount jobs + serverCompletedCount jobs ≤
      serverTotalCount jobs := by
  induction jobs with
  | nil => simp [serverRunningCount, serverFailedCount, serverCompletedCount, serverTotalCount]
  | cons j tl ih =>
    simp only [serverRunningCount, serverFailedCount, serverCompletedCount,
      serverTotalCount, List.filter_cons, List.length_cons] at ih ⊢
    cases hla : j.lockedAt <;> cases hle : j.lastError <;>
      by_cases hatt : 0 < j.attempts <;> simp_all <;> omega

/-- C4: for every job population, the dashboard's total count equals the sum
of the four per-status counts as the second App variant derives them: the
three filtered server counts plus the pending count obtained by clamped
subtraction. -/
theorem claim_C4_total_eq_sum (jobs : List Job) :
    jobStatsPending (serverTotalCount jobs) (serverRunningCount jobs)
        (serverFailedCount jobs) (serverCompletedCount jobs) +
      (serverRunningCount jobs : Int) + (serverFailedCount jobs : Int) +
      (serverCompletedCount jobs : Int) = (serverTotalCount jobs : Int) := by
  have h := server_counts_le_total jobs
  unfold jobStatsPending
  omega

/-- C5: each of the three mutation resolvers returns true exactly on query
success; on any error it returns false and writes one server-side log line,
and the boolean it returns is the same for every error, so no failure reason
beyond the boolean reaches the client. -/
theorem claim_C5_resolver_error_handling :
    (∀ u : Unit, (retryJobResolve (Except.ok u)).result = true ∧
      (retryJobResolve (Except.ok u)).logged = none ∧
      (cancelJobResolve (Except.ok u)).result = true ∧
      (cancelJobResolve (Except.ok u)).logged = none ∧
      (completeJobResolve (Except.ok u)).result = true ∧
      (completeJobResolve (Except.ok u)).logged = none) ∧
    (∀ e : String, (retryJobResolve (Except.error e)).result = false ∧
      (retryJobResolve (Except.error e)).logged = some ("Error retrying job: " ++ e) ∧
      (cancelJobResolve (Except.error e)).result = false ∧
      (cancelJobResolve (Except.error e)).logged = some ("Error cancelling job: " ++ e) ∧
      (completeJobResolve (Except.error e)).result = false ∧
      (completeJobResolve (Except.error e)).logged = some ("Error completing job: " ++ e)) ∧
    (∀ e1 e2 : String,
      (retryJobResolve (Except.error e1)).result = (retryJobResolve (Except.error e2)).result ∧
      (cancelJobResolve (Except.error e1)).result = (cancelJobResolve (Except.error e2)).result ∧
      (completeJobResolve (Except.error e1)).result =
        (completeJobResolve (Except.error e2)).result) := by
  refine ⟨fun u => ?_, fun e => ?_, fun e1 e2 => ?_⟩ <;>
    simp [retryJobResolve, cancelJobResolve, completeJobResolve]

/-- C6: encoding a JobList filter state into the URL query parameters and
re-initialising the state from them reconstructs the identical state.  The
hypotheses record the component's state-space invariant that the three select
filters are never the empty string (their values come either from the fixed
option lists or from decoding, both of which produce non-empty strings). -/
theorem claim_C6_filter_roundtrip (s : FilterState) (hst : s.statusFilter ≠ "")
    (hta : s.taskFilter ≠ "") (hqu : s.queueFilter ≠ "") :
    decodeState (encodeParams s) = s := by
  have hq := encodeParams_q s
  have hst2 := encodeParams_status s
  have hta2 := encodeParams_task s
  have hqu2 := encodeParams_queue s
  have hp := decodePage_encodeParams s
  show (⟨orElseStr (encodeParams s "q") "", orElseStr (encodeParams s "status") "all",
    orElseStr (encodeParams s "task") "all", orElseStr (encodeParams s "queue") "all",
    decodePage (encodeParams s "page")⟩ : FilterState) = s
  rw [hq, hst2, hta2, hqu2, hp]
  obtain ⟨q, st, ta, qu, p⟩ := s
  simp only at hst hta hqu
  simp only [FilterState.mk.injEq]
  refine ⟨?_, ?_, ?_, ?_, trivial⟩
  · by_cases h : q = "" <;> simp [orElseStr, h]
  · rcases eq_or_ne st "all" with h | h
    · simp [orElseStr, h]
    · have hcond : ¬(st = "" ∨ st = "all") := by simp [hst, h]
      rw [if_neg hcond]
      simp [orElseStr, hst]
  · rcases eq_or_ne ta "all" with h | h
    · simp [orElseStr, h]
    · have hcond : ¬(ta = "" ∨ ta = "all") := by simp [hta, h]
      rw [if_neg hcond]
      simp [orElseStr, hta]
  · rcases eq_or_ne qu "all" with h | h
    · simp [orElseStr, h]
    · have hcond : ¬(qu = "" ∨ qu = "all") := by simp [hqu, h]
      rw [if_neg hcond]
      simp [orElseStr, hqu]

/-- Support for C6's hypotheses: `x || dflt` with a non-empty default never
yields the empty string. -/
theorem orElseStr_ne_empty (o : Option String) (dflt : String) (hd : dflt ≠ "") :
    orElseStr o dflt ≠ "" := by
  cases o with
  | none => simpa [orElseStr] using hd
  | some v => by_cases hv : v = "" <;> simp [orElseStr, hv, hd]

/-- Support for C6's hypotheses: every state the decode effect (or the state
initializer) produces has non-empty select filters, since their defaults are
the non-empty sentinel `all`; so the round-trip hypotheses hold for every
state the JobList component can reach. -/
theorem decodeState_filters_nonempty (m : ParamsMap) :
    (decodeState m).statusFilter ≠ "" ∧ (decodeState m).taskFilter ≠ "" ∧
      (decodeState m).queueFilter ≠ "" :=
  ⟨orElseStr_ne_empty _ _ (by decide), orElseStr_ne_empty _ _ (by decide),
    orElseStr_ne_empty _ _ (by decide)⟩

/-- C6 witness: the round trip applied to a concrete filter state with an
active search, an active status filter, and page index 3. -/
theorem claim_C6_filter_roundtrip_witness :
    decodeState (encodeParams (FilterState.mk "mailer" "failed" "all" "default" 3)) =
      FilterState.mk "mailer" "failed" "all" "default" 3 :=
  claim_C6_filter_roundtrip (FilterState.mk "mailer" "failed" "all" "default" 3)
    (by decide) (by decide) (by decide)

/-- C7: the cancelJob resolver invokes the Job Store's terminal-failure
procedure with exactly the given single job id and the fixed reason string
`Cancelled by user`, for every job id. -/
theorem claim_C7_cancel_reason (jobId : String) :
    (cancelJobCall jobId).text =
      "SELECT graphile_worker.permanently_fail_jobs($1::bigint[], $2)" ∧
    (cancelJobCall jobId).idArray = [jobId] ∧
    (cancelJobCall jobId).secondParam = some "Cancelled by user" :=
  ⟨rfl, rfl, rfl⟩

/-- C8 counterexample: the JobDetails view polls every 2000 milliseconds,
below the claimed 5-second lower bound. -/
theorem claim_C8_counterexample : jobDetailsPollInterval < 5000 := by decide

/-- C8 (amended): every view's fixed poll interval lies between 2 and 30
seconds inclusive; every view except the JobDetails job-detail view, which
polls every 2 seconds, polls within 5 to 30 seconds inclusive. -/
theorem claim_C8_poll_intervals :
    2000 ≤ jobDetailsPollInterval ∧ jobDetailsPollInterval ≤ 30000 ∧
    5000 ≤ dashboardPollIntervalV1 ∧ dashboardPollIntervalV1 ≤ 30000 ∧
    5000 ≤ dashboardPollIntervalV2 ∧ dashboardPollIntervalV2 ≤ 30000 ∧
    5000 ≤ jobListPollInterval ∧ jobListPollInterval ≤ 30000 ∧
    5000 ≤ queuesPollInterval ∧ queuesPollInterval ≤ 30000 ∧
    5000 ≤ jobPagePollInterval ∧ jobPagePollInterval ≤ 30000 := by
  decide

/-- C9: for every totalPages of at least 1, every in-range current page, and
every Pagination interaction (buttons or any typed integer), the page index
passed to onPageChange stays within 0 and totalPages - 1. -/
theorem claim_C9_page_bounds (currentPage totalPages : Int) (a : PageAction)
    (htp : 1 ≤ totalPages) (h0 : 0 ≤ currentPage)
    (hcp : currentPage ≤ totalPages - 1) :
    0 ≤ pageTarget currentPage totalPages a ∧
      pageTarget currentPage totalPages a ≤ totalPages - 1 := by
  cases a <;> simp [pageTarget] <;> omega

/-- C9 witness: typing the out-of-range page number -7 on page 2 of 3 still
yields an in-range page index. -/
theorem claim_C9_page_bounds_witness :
    0 ≤ pageTarget 1 3 (PageAction.input (-7)) ∧
      pageTarget 1 3 (PageAction.input (-7)) ≤ 3 - 1 :=
  claim_C9_page_bounds 1 3 (PageAction.input (-7)) (by decide) (by decide) (by decide)

/-- C10: the dashboard's derived pending count is never negative, for all
server-returned aggregate counts, including inconsistent ones. -/
theorem claim_C10_pending_nonneg (total running failed completed : Int) :
    0 ≤ jobStatsPending total running failed completed := by
  unfold jobStatsPending
  exact le_max_left 0 _
